import Mathlib

/-!
Shallow embedding of the healthcare chat application in `src/app.py`.

The application is a single-file Flask service.  Its pure logic is embedded
below: the emergency keyword detector, the conversation composer and the
error-classifying gateway wrapper of `get_gpt_response`, and the request
handlers `chat`, `get_history`, `clear_history` and `test_api`.  External
effects are passed in explicitly: the upstream model API is an oracle
function from the composed message list to either a reply or an error
message, the clock is a timestamp argument, and the persisted transcript
file is explicit state.  Python string primitives used by the code
(`str.lower`, `str.strip`, slicing, the `in` substring test) are embedded
as functions over the character lists of Lean strings.
-/

/-- Python `needle.isPrefix`-style check on character lists: `startsWithL p s`
is true when `p` occurs at the very start of `s`. -/
def startsWithL : List Char → List Char → Bool
  | [], _ => true
  | _ :: _, [] => false
  | a :: as, b :: bs => a == b && startsWithL as bs

/-- Occurrence of `needle` as a contiguous sublist of `hay`, scanning every
start position, matching Python substring containment. -/
def containsL (needle : List Char) : List Char → Bool
  | [] => needle.isEmpty
  | c :: t => startsWithL needle (c :: t) || containsL needle t

/-- Python's `needle in hay` substring test on strings. -/
def pyIn (needle hay : String) : Bool :=
  containsL needle.data hay.data

/-- Python's `str.lower()` (ASCII range; the code's keyword lists and error
substrings are lower-cased ASCII or caseless Devanagari). -/
def pyLower (s : String) : String :=
  ⟨s.data.map Char.toLower⟩

/-- Strip whitespace from both ends of a character list. -/
def stripL (l : List Char) : List Char :=
  ((l.dropWhile Char.isWhitespace).reverse.dropWhile Char.isWhitespace).reverse

/-- Python's `str.strip()` with no arguments. -/
def pyStrip (s : String) : String :=
  ⟨stripL s.data⟩

/-- Python slicing `s[:n]`. -/
def pyTake (s : String) (n : Nat) : String :=
  ⟨s.data.take n⟩

/-- The fixed keyword list `EMERGENCY_KEYWORDS` of `src/app.py` lines 25-29. -/
def EMERGENCY_KEYWORDS : List String :=
  ["chest pain", "difficulty breathing", "shortness of breath", "severe pain",
   "unconscious", "heart attack", "stroke", "bleeding heavily",
   "सीने में दर्द", "सांस लेने में दिक्कत", "बेहोशी", "तेज दर्द"]

/-- `detect_emergency` of `src/app.py` lines 49-51: any keyword, lowered,
occurs in the lowered text. -/
def detect_emergency (text : String) : Bool :=
  EMERGENCY_KEYWORDS.any (fun keyword => pyIn (pyLower keyword) (pyLower text))

/-- One persisted chat turn, the dict built in `chat` (`src/app.py` lines
135-140).  An absent `user` or `bot` field of an entry already in storage is
modelled as the empty string, matching Python truthiness in `chat.get`. -/
structure ChatEntry where
  user : String
  bot : String
  timestamp : String
  is_emergency : Bool
deriving DecidableEq, Repr

/-- One outbound role-tagged message. -/
structure Message where
  role : String
  content : String
deriving DecidableEq, Repr

/-- The fixed persona instruction, `src/app.py` line 55. -/
def SYSTEM_PROMPT : String :=
  "You are a friendly healthcare assistant who can speak English, Hindi, and Punjabi. Provide helpful health advice but always remind users to consult doctors for serious issues. Keep responses concise and caring."

/-- The message-list construction of `get_gpt_response` (`src/app.py` lines
55-64): the system message, then the loop over `chat_history[-6:]` appending
a user message when the `user` field is non-empty and an assistant message
when the `bot` field is non-empty, then the new user message. -/
def compose_messages (user_input : String) (chat_history : List ChatEntry) : List Message :=
  let messages : List Message := [⟨"system", SYSTEM_PROMPT⟩]
  let messages := (chat_history.drop (chat_history.length - 6)).foldl
    (fun ms chat =>
      let ms := if chat.user ≠ "" then ms ++ [⟨"user", chat.user⟩] else ms
      if chat.bot ≠ "" then ms ++ [⟨"assistant", chat.bot⟩] else ms)
    messages
  messages ++ [⟨"user", user_input⟩]

/-- Warning returned for errors matching `"401" in error_msg or
"authentication" in error_msg.lower()` (`src/app.py` line 92). -/
def WARN_AUTH : String :=
  "⚠️ API authentication failed. Please check your OpenRouter API key."

/-- Warning for `402`/`credit` errors (`src/app.py` line 94). -/
def WARN_CREDITS : String :=
  "⚠️ API credits exhausted. Please add credits to your OpenRouter account."

/-- Warning for `429`/`rate limit` errors (`src/app.py` line 96). -/
def WARN_RATE : String :=
  "⚠️ Too many requests. Please wait a moment and try again."

/-- Warning for `timeout` errors (`src/app.py` line 98). -/
def WARN_TIMEOUT : String :=
  "⚠️ Request timed out. Please try again."

/-- Fallback warning (`src/app.py` line 100). -/
def WARN_GENERIC : String :=
  "⚠️ Something went wrong, please try again."

/-- The `except` branch of `get_gpt_response` (`src/app.py` lines 86-100):
classify the stringified exception by substring sniffing, in source order. -/
def classify_error (error_msg : String) : String :=
  if pyIn "401" error_msg || pyIn "authentication" (pyLower error_msg) then WARN_AUTH
  else if pyIn "402" error_msg || pyIn "credit" (pyLower error_msg) then WARN_CREDITS
  else if pyIn "429" error_msg || pyIn "rate limit" (pyLower error_msg) then WARN_RATE
  else if pyIn "timeout" (pyLower error_msg) then WARN_TIMEOUT
  else WARN_GENERIC

/-- `get_gpt_response` of `src/app.py` lines 53-100.  The upstream
chat-completion call is an oracle `api` from the composed message list to
either the reply content or the stringified raised exception.  On success the
content is stripped; on failure the error is classified into a warning. -/
def get_gpt_response (user_input : String) (chat_history : List ChatEntry)
    (api : List Message → Except String String) : String :=
  match api (compose_messages user_input chat_history) with
  | .ok content => pyStrip content
  | .error e => classify_error e

/-- The fixed emergency reply synthesized in `chat` (`src/app.py` line 127). -/
def EMERGENCY_RESPONSE : String :=
  "🚨 This may be an emergency! Please seek urgent medical help immediately:\n\n📞 Call 102 (Ambulance)\n📞 Call 108 (Emergency)\n🏥 Visit nearest hospital\n\nYour safety is the priority!"

/-- Outcome of the `chat` handler: a 400 rejection with an error payload, or
a 200 turn with response text, emergency flag and timestamp. -/
inductive ChatResp where
  | bad (error : String)
  | ok (response : String) (is_emergency : Bool) (timestamp : String)
deriving DecidableEq, Repr

/-- The `/api/chat` handler (`src/app.py` lines 108-150).  `data` is the
value of the `message` key of the JSON body (`none` when the key is absent,
in which case `data.get` yields the default empty string).  `now` is the
clock reading, `api` the upstream oracle and `stored` the persisted
transcript; the returned pair is the HTTP outcome and the transcript as
persisted by `save_chat_history`. -/
def chat (data : Option String) (now : String)
    (api : List Message → Except String String)
    (stored : List ChatEntry) : ChatResp × List ChatEntry :=
  let user_message := pyStrip (data.getD "")
  if user_message = "" then
    (.bad "Message cannot be empty", stored)
  else
    let chat_history := stored
    let is_emergency := detect_emergency user_message
    let bot_response :=
      if is_emergency then EMERGENCY_RESPONSE
      else get_gpt_response user_message chat_history api
    let chat_entry : ChatEntry :=
      ⟨user_message, bot_response, now, is_emergency⟩
    (.ok bot_response is_emergency now, chat_history ++ [chat_entry])

/-- The `/api/history` handler (`src/app.py` lines 156-160): returns the
persisted transcript as-is. -/
def get_history (stored : List ChatEntry) : List ChatEntry :=
  stored

/-- Result of `save_chat_history` (`src/app.py` lines 41-47) viewed as
exception propagation: the body's write may raise (`writeResult` is the
filesystem outcome), but the `except` clause catches every exception and
only logs it, so no exception ever propagates to the caller. -/
def save_chat_history (writeResult : Except String Unit) : Except String Unit :=
  match writeResult with
  | .ok u => .ok u
  | .error _ => .ok ()

/-- Outcome of the `/api/clear_history` handler: 200 success or 500 error. -/
inductive ClearResp where
  | success
  | failure (error : String)
deriving DecidableEq, Repr

/-- The `/api/clear_history` handler (`src/app.py` lines 162-169): calls
`save_chat_history([])` inside a try block whose `except` branch returns a
500 error. -/
def clear_history (writeResult : Except String Unit) : ClearResp :=
  match save_chat_history writeResult with
  | .ok _ => .success
  | .error e => .failure e

/-- Python truthiness of an optional string (`None` and the empty string are
falsy). -/
def pyTruthy (s : Option String) : Bool :=
  match s with
  | none => false
  | some t => t ≠ ""

/-- The JSON body of the `/api/test` handler. -/
structure TestResp where
  status : String
  site_url : String
  api_key_set : Bool
  api_key_prefix : Option String
  model : String
deriving DecidableEq, Repr

/-- The `/api/test` handler (`src/app.py` lines 171-180).  `api_key` is the
environment value of `OPENAI_API_KEY` (`none` when unset) and `site_url` the
configured site URL. -/
def test_api (api_key : Option String) (site_url : String) : TestResp :=
  { status := "ok"
    site_url := site_url
    api_key_set := pyTruthy api_key
    api_key_prefix :=
      match api_key with
      | some k => if k ≠ "" then some (pyTake k 20) else none
      | none => none
    model := "openai/gpt-4o-mini" }

/-- Runs a sequence of `/api/chat` submissions, each given as a pair of
message text and clock reading, threading the persisted transcript. -/
def run_chats (api : List Message → Except String String) :
    List (String × String) → List ChatEntry → List ChatEntry
  | [], st => st
  | p :: rest, st => run_chats api rest (chat (some p.1) p.2 api st).2

/-- The messages a single transcript entry contributes to the context
window: a user message when its `user` field is non-empty, then an
assistant message when its `bot` field is non-empty. -/
def entry_messages (chat : ChatEntry) : List Message :=
  (if chat.user ≠ "" then [⟨"user", chat.user⟩] else []) ++
  (if chat.bot ≠ "" then [⟨"assistant", chat.bot⟩] else [])

/-- The composer as the spec's section 4.3 words it, for comparison with
`compose_messages`: one system message; then, for each of the last 6
transcript entries in chronological order, that entry's contribution; then
one user message holding the new message. -/
def spec_compose (newMessage : String) (transcript : List ChatEntry) : List Message :=
  ⟨"system", SYSTEM_PROMPT⟩ ::
    (((transcript.reverse.take 6).reverse.map entry_messages).flatten ++
      [⟨"user", newMessage⟩])

/-! ## Supporting lemmas -/

/-- The empty string triggers no emergency keyword. -/
theorem detect_emergency_empty : detect_emergency "" = false := by decide

/-- Stripping the empty string gives the empty string. -/
theorem pyStrip_empty : pyStrip "" = "" := rfl

/-- The context-building loop of `get_gpt_response` appends, for each entry
of the window in order, exactly that entry's `entry_messages`. -/
theorem compose_foldl (l : List ChatEntry) (init : List Message) :
    l.foldl
      (fun ms chat =>
        let ms := if chat.user ≠ "" then ms ++ [⟨"user", chat.user⟩] else ms
        if chat.bot ≠ "" then ms ++ [⟨"assistant", chat.bot⟩] else ms)
      init
    = init ++ (l.map entry_messages).flatten := by
  induction l generalizing init with
  | nil => simp
  | cons c t ih =>
    simp only [List.foldl_cons, List.map_cons, List.flatten_cons, ih]
    by_cases hu : c.user = "" <;> by_cases hb : c.bot = "" <;>
      simp [entry_messages, hu, hb]

/-- On a non-empty trimmed message, `chat` takes its 200 branch and persists
the old transcript with exactly one new entry appended, carrying the trimmed
message, the computed reply, the clock reading and the emergency flag. -/
theorem chat_snd_nonempty (m now : String)
    (api : List Message → Except String String) (st : List ChatEntry)
    (h : pyStrip m ≠ "") :
    (chat (some m) now api st).2
      = st ++ [⟨pyStrip m,
                if detect_emergency (pyStrip m) then EMERGENCY_RESPONSE
                else get_gpt_response (pyStrip m) st api,
                now, detect_emergency (pyStrip m)⟩] := by
  simp [chat, h]

/-- Timestamps recorded by a run of submissions are the submitted clock
readings, appended to the timestamps already stored. -/
theorem run_chats_timestamps (api : List Message → Except String String)
    (msgs : List (String × String)) (st : List ChatEntry)
    (hne : ∀ p ∈ msgs, pyStrip p.1 ≠ "") :
    (run_chats api msgs st).map (fun e => e.timestamp)
      = st.map (fun e => e.timestamp) ++ msgs.map Prod.snd := by
  induction msgs generalizing st with
  | nil => simp [run_chats]
  | cons p rest ih =>
    have hp : pyStrip p.1 ≠ "" := hne p (List.mem_cons_self _ _)
    simp only [run_chats]
    rw [ih _ (fun q hq => hne q (List.mem_cons_of_mem _ hq)),
      chat_snd_nonempty _ _ _ _ hp]
    simp

/-! ## Claim theorems -/

/-- C2: for every non-empty input text, `detect_emergency text` is true iff
the lowercased text contains at least one lowercased keyword of the fixed
`EMERGENCY_KEYWORDS` list (case-insensitive substring matching). -/
theorem detect_emergency_iff (text : String) (h : text ≠ "") :
    detect_emergency text = true ↔
      ∃ k ∈ EMERGENCY_KEYWORDS, pyIn (pyLower k) (pyLower text) = true := by
  simp [detect_emergency, List.any_eq_true]

/-- Witness for C2 at the concrete text "CHEST pain!". -/
theorem detect_emergency_iff_witness :
    ("CHEST pain!" ≠ "") ∧
    (detect_emergency "CHEST pain!" = true ↔
      ∃ k ∈ EMERGENCY_KEYWORDS, pyIn (pyLower k) (pyLower "CHEST pain!") = true) :=
  ⟨by decide, detect_emergency_iff "CHEST pain!" (by decide)⟩

/-- C4: the outbound message list built by `get_gpt_response` is exactly one
system message with the fixed persona instruction, then the contributions of
the last 6 transcript entries in chronological order (each entry giving a
user message if its `user` field is non-empty followed by an assistant
message if its `bot` field is non-empty), then one final user message with
the new message; entries earlier than the last 6 contribute nothing. -/
theorem compose_messages_eq_spec (user_input : String) (chat_history : List ChatEntry) :
    compose_messages user_input chat_history = spec_compose user_input chat_history := by
  have hwin : chat_history.drop (chat_history.length - 6)
      = (chat_history.reverse.take 6).reverse := by
    rw [← List.rtake_eq_reverse_take_reverse]; rfl
  simp only [compose_messages, spec_compose, compose_foldl, hwin]
  simp

/-- C9: `clear_history` always answers success; its 500 branch is
unreachable because `save_chat_history` swallows every write failure. -/
theorem clear_history_always_success (w : Except String Unit) :
    save_chat_history w = Except.ok () ∧ clear_history w = ClearResp.success := by
  cases w with
  | ok u => cases u; exact ⟨rfl, rfl⟩
  | error e => exact ⟨rfl, rfl⟩

/-- C10: a body without a "message" key is handled like an empty message: a
400 rejection that leaves the transcript untouched. -/
theorem chat_missing_message_key (now : String)
    (api : List Message → Except String String) (st : List ChatEntry) :
    chat none now api st = (.bad "Message cannot be empty", st) ∧
    chat none now api st = chat (some "") now api st := by
  constructor <;> simp [chat, pyStrip_empty]

/-- C3: a message that is empty after trimming yields the 400 rejection and
the persisted transcript (as served by the history endpoint) is unchanged. -/
theorem chat_empty_message (m now : String)
    (api : List Message → Except String String) (st : List ChatEntry)
    (h : pyStrip m = "") :
    chat (some m) now api st = (.bad "Message cannot be empty", st) ∧
    get_history (chat (some m) now api st).2 = get_history st := by
  constructor <;> simp [chat, get_history, h]

/-- Witness for C3 at a whitespace-only message. -/
theorem chat_empty_message_witness :
    pyStrip "   " = "" ∧
    (chat (some "   ") "t0" (fun _ => .error "x") []
        = (.bad "Message cannot be empty", []) ∧
      get_history (chat (some "   ") "t0" (fun _ => .error "x") []).2
        = get_history []) :=
  ⟨by decide, chat_empty_message "   " "t0" (fun _ => .error "x") [] (by decide)⟩

/-- C1: on a submission whose (trimmed) message text triggers the emergency
detector, `chat` answers with the fixed emergency-guidance text and
`is_emergency` true, persists that turn, and never consults the upstream
oracle: the whole outcome is identical under any two oracles, so
`get_gpt_response` is not invoked. -/
theorem chat_emergency (m now : String)
    (api1 api2 : List Message → Except String String) (st : List ChatEntry)
    (h : detect_emergency (pyStrip m) = true) :
    chat (some m) now api1 st
      = (.ok EMERGENCY_RESPONSE true now,
         st ++ [⟨pyStrip m, EMERGENCY_RESPONSE, now, true⟩]) ∧
    chat (some m) now api1 st = chat (some m) now api2 st := by
  have hne : pyStrip m ≠ "" := by
    intro he
    rw [he, detect_emergency_empty] at h
    exact Bool.false_ne_true h
  constructor <;> simp [chat, hne, h]

/-- Witness for C1 at the concrete message " I have chest pain  ", under an
erroring oracle and an unrelated succeeding oracle. -/
theorem chat_emergency_witness :
    detect_emergency (pyStrip " I have chest pain  ") = true ∧
    (chat (some " I have chest pain  ") "t0" (fun _ => .error "boom") []
        = (.ok EMERGENCY_RESPONSE true "t0",
           [⟨pyStrip " I have chest pain  ", EMERGENCY_RESPONSE, "t0", true⟩]) ∧
      chat (some " I have chest pain  ") "t0" (fun _ => .error "boom") []
        = chat (some " I have chest pain  ") "t0" (fun _ => .ok "fine") []) :=
  ⟨by decide,
   chat_emergency " I have chest pain  " "t0" (fun _ => .error "boom")
     (fun _ => .ok "fine") [] (by decide)⟩

/-- C5: when the message is non-empty after trimming, no emergency keyword
matches, and the upstream call on the composed messages raises, `chat` still
answers a successful 200 turn whose response is the classified warning — one
of the five fixed warning strings — and appends that turn to the
transcript. -/
theorem chat_upstream_error (m now e : String)
    (api : List Message → Except String String) (st : List ChatEntry)
    (h1 : pyStrip m ≠ "") (h2 : detect_emergency (pyStrip m) = false)
    (h3 : api (compose_messages (pyStrip m) st) = .error e) :
    chat (some m) now api st
      = (.ok (classify_error e) false now,
         st ++ [⟨pyStrip m, classify_error e, now, false⟩]) ∧
    (classify_error e = WARN_AUTH ∨ classify_error e = WARN_CREDITS ∨
      classify_error e = WARN_RATE ∨ classify_error e = WARN_TIMEOUT ∨
      classify_error e = WARN_GENERIC) := by
  constructor
  · simp [chat, h1, h2, get_gpt_response, h3]
  · unfold classify_error
    split_ifs <;> simp

/-- Witness for C5 at the message "hello doctor" under an oracle raising
"boom". -/
theorem chat_upstream_error_witness :
    pyStrip "hello doctor" ≠ "" ∧
    detect_emergency (pyStrip "hello doctor") = false ∧
    ((fun _ : List Message => (.error "boom" : Except String String))
        (compose_messages (pyStrip "hello doctor") []) = .error "boom") ∧
    (chat (some "hello doctor") "t0" (fun _ => .error "boom") []
        = (.ok (classify_error "boom") false "t0",
           [⟨pyStrip "hello doctor", classify_error "boom", "t0", false⟩]) ∧
      (classify_error "boom" = WARN_AUTH ∨ classify_error "boom" = WARN_CREDITS ∨
        classify_error "boom" = WARN_RATE ∨ classify_error "boom" = WARN_TIMEOUT ∨
        classify_error "boom" = WARN_GENERIC)) :=
  ⟨by decide, by decide, rfl,
   chat_upstream_error "hello doctor" "t0" "boom" (fun _ => .error "boom") []
     (by decide) (by decide) rfl⟩

/-- C6 counterexample: the error message "401 429" contains "429", yet the
classifier returns the authentication warning, not the rate-limit warning,
because the 401 test comes first. -/
theorem classify_429_counterexample :
    pyIn "429" "401 429" = true ∧ classify_error "401 429" ≠ WARN_RATE := by decide

/-- C6 (amended): an error message containing "401" always yields the auth
warning verbatim; one containing "429" yields the rate-limit warning
verbatim provided it contains none of the earlier-matched substrings "401",
"authentication" (lowercased), "402" or "credit" (lowercased). -/
theorem classify_error_by_code (e : String) :
    (pyIn "401" e = true → classify_error e = WARN_AUTH) ∧
    (pyIn "429" e = true → pyIn "401" e = false →
      pyIn "authentication" (pyLower e) = false → pyIn "402" e = false →
      pyIn "credit" (pyLower e) = false → classify_error e = WARN_RATE) := by
  constructor
  · intro h
    simp [classify_error, h]
  · intro h429 h401 hauth h402 hcred
    simp [classify_error, h429, h401, hauth, h402, hcred]

/-- Witness for C6 at the messages "Error code: 401" and "Error code: 429". -/
theorem classify_error_by_code_witness :
    classify_error "Error code: 401" = WARN_AUTH ∧
    classify_error "Error code: 429" = WARN_RATE :=
  ⟨(classify_error_by_code "Error code: 401").1 (by decide),
   (classify_error_by_code "Error code: 429").2 (by decide) (by decide)
     (by decide) (by decide) (by decide)⟩

/-- C7 counterexample: for the configured key "shortkey" (8 characters) the
diagnostics endpoint reports the whole key as `api_key_prefix`, so the
returned prefix is not always distinct from the full secret. -/
theorem test_api_counterexample :
    (test_api (some "shortkey") "https://ai-1-itlj.onrender.com").api_key_set = true ∧
    TestResp.api_key_prefix (test_api (some "shortkey") "https://ai-1-itlj.onrender.com")
      = some "shortkey" := by decide

/-- C7 (amended): the diagnostics endpoint always reports status "ok", the
configured site URL and the fixed model identifier; with no configured
(truthy) key it reports `api_key_set` false and a null prefix; with a
configured key it reports `api_key_set` true and the first at-most-20
characters of the key, which differs from the full secret whenever the key
is longer than 20 characters. -/
theorem test_api_fields (key : Option String) (site : String) :
    (test_api key site).status = "ok" ∧
    (test_api key site).site_url = site ∧
    (test_api key site).model = "openai/gpt-4o-mini" ∧
    (pyTruthy key = false → (test_api key site).api_key_set = false ∧
      TestResp.api_key_prefix (test_api key site) = none) ∧
    (∀ k, key = some k → k ≠ "" →
      (test_api key site).api_key_set = true ∧
      TestResp.api_key_prefix (test_api key site) = some (pyTake k 20) ∧
      (20 < k.length → TestResp.api_key_prefix (test_api key site) ≠ some k)) := by
  refine ⟨rfl, rfl, rfl, ?_, ?_⟩
  · intro h
    cases key with
    | none => exact ⟨rfl, rfl⟩
    | some k =>
      simp only [pyTruthy, decide_eq_false_iff_not, not_not] at h
      simp [test_api, pyTruthy, h]
  · intro k hk hne
    subst hk
    refine ⟨by simp [test_api, pyTruthy, hne], by simp [test_api, hne], ?_⟩
    intro hlen heq
    have hpre : TestResp.api_key_prefix (test_api (some k) site) = some (pyTake k 20) := by
      simp [test_api, hne]
    rw [hpre] at heq
    have heq' : pyTake k 20 = k := Option.some.inj heq
    have hl : (pyTake k 20).length = k.length := by rw [heq']
    simp only [pyTake, String.length, List.length_take] at hl
    have : k.length = k.data.length := rfl
    omega

/-- Witness for C7 at a 25-character key. -/
theorem test_api_fields_witness :
    (test_api (some "sk-or-v1-0123456789abcdef") "https://ai-1-itlj.onrender.com").api_key_set = true ∧
    TestResp.api_key_prefix (test_api (some "sk-or-v1-0123456789abcdef") "https://ai-1-itlj.onrender.com")
      = some (pyTake "sk-or-v1-0123456789abcdef" 20) ∧
    TestResp.api_key_prefix (test_api (some "sk-or-v1-0123456789abcdef") "https://ai-1-itlj.onrender.com")
      ≠ some "sk-or-v1-0123456789abcdef" := by
  have h := (test_api_fields (some "sk-or-v1-0123456789abcdef")
    "https://ai-1-itlj.onrender.com").2.2.2.2 "sk-or-v1-0123456789abcdef" rfl (by decide)
  exact ⟨h.1, h.2.1, h.2.2 (by decide)⟩

/-- C8: starting from the empty transcript, N successful submissions leave
exactly N turns, in submission order, whose timestamps are the submitted
clock readings (hence non-decreasing whenever the clock is); each successful
submission appends exactly one whole turn to the existing transcript, never
mutating or removing earlier turns. -/
theorem chat_history_accumulates (msgs : List (String × String))
    (api : List Message → Except String String)
    (hne : ∀ p ∈ msgs, pyStrip p.1 ≠ "") :
    (get_history (run_chats api msgs [])).length = msgs.length ∧
    (get_history (run_chats api msgs [])).map (fun e => e.timestamp)
      = msgs.map Prod.snd ∧
    (∀ p ∈ msgs, ∀ st : List ChatEntry, ∃ e : ChatEntry,
      e.timestamp = p.2 ∧ e.user = pyStrip p.1 ∧
      (chat (some p.1) p.2 api st).2 = st ++ [e]) ∧
    (List.Chain' (fun a b : String => a ≤ b) (msgs.map Prod.snd) →
      List.Chain' (fun a b : String => a ≤ b)
        ((get_history (run_chats api msgs [])).map (fun e => e.timestamp))) := by
  have hts : (run_chats api msgs []).map (fun e => e.timestamp)
      = msgs.map Prod.snd := by
    simpa using run_chats_timestamps api msgs [] hne
  refine ⟨?_, ?_, ?_, ?_⟩
  · have := congrArg List.length hts
    simpa [get_history] using this
  · simpa [get_history] using hts
  · intro p hp st
    exact ⟨_, rfl, rfl, chat_snd_nonempty p.1 p.2 api st (hne p hp)⟩
  · intro hchain
    simpa [get_history, hts] using hchain

/-- Witness for C8 at two concrete submissions with increasing clock
readings. -/
theorem chat_history_accumulates_witness :
    (get_history (run_chats (fun _ => .error "x")
        [("hi", "2026-10-12T00:00:00"), ("how are you", "2026-10-12T00:00:01")] [])).length = 2 ∧
    (get_history (run_chats (fun _ => .error "x")
        [("hi", "2026-10-12T00:00:00"), ("how are you", "2026-10-12T00:00:01")] [])).map
        (fun e => e.timestamp)
      = [("hi", "2026-10-12T00:00:00"), ("how are you", "2026-10-12T00:00:01")].map Prod.snd ∧
    (∀ p ∈ [("hi", "2026-10-12T00:00:00"), ("how are you", "2026-10-12T00:00:01")],
      ∀ st : List ChatEntry, ∃ e : ChatEntry,
        e.timestamp = p.2 ∧ e.user = pyStrip p.1 ∧
        (chat (some p.1) p.2 (fun _ => .error "x") st).2 = st ++ [e]) ∧
    (List.Chain' (fun a b : String => a ≤ b)
        ([("hi", "2026-10-12T00:00:00"), ("how are you", "2026-10-12T00:00:01")].map Prod.snd) →
      List.Chain' (fun a b : String => a ≤ b)
        ((get_history (run_chats (fun _ => .error "x")
            [("hi", "2026-10-12T00:00:00"), ("how are you", "2026-10-12T00:00:01")] [])).map
          (fun e => e.timestamp))) :=
  chat_history_accumulates
    [("hi", "2026-10-12T00:00:00"), ("how are you", "2026-10-12T00:00:01")]
    (fun _ => .error "x") (by decide)
